import Mathlib

/-!
Verification development for the `road_intersection` simulator.

The repository snapshot contains two generations of the core:

* `src/lib.rs` — the crate root: geometry constants, a 4-variant `Direction`
  enum, its own `TrafficLightController` (with an `all_red_phase: bool`), the
  `Vehicle`/`World` types, `World::update` and `World::spawn_vehicle`, plus a
  private `generate_path`.  This is embedded below in the `Lib` namespace.
* `src/traffic_light.rs` and `src/vehicle.rs` — a newer variant whose
  `Direction` carries a fifth `AllRed` member; `traffic_light.rs` holds the
  4-input adaptive controller, and `vehicle.rs` a reworked `generate_path`.
  These are embedded at top level (`Direction`, `TrafficLightController`,
  `generate_path`).

Machine integers: all coordinates are Rust `i32` values far from overflow, so
they are embedded as `Int`; `u32`/`usize` counters become `Nat`.  Rust
`Duration`/`Instant` wall-clock timing is embedded as `Nat` milliseconds, with
the ambient clock `Instant::now()` passed in explicitly as a `now : Nat`
argument (the standard shallow embedding of a monotone clock source).
-/

/-- Window width in pixels (`WINDOW_WIDTH: u32 = 800`). -/
def WINDOW_WIDTH : Int := 800

/-- Window height in pixels (`WINDOW_HEIGHT: u32 = 600`). -/
def WINDOW_HEIGHT : Int := 600

/-- Road width in pixels (`ROAD_WIDTH: u32 = 100`). -/
def ROAD_WIDTH : Int := 100

/-- Horizontal road start, `(WINDOW_WIDTH - ROAD_WIDTH) / 2 = 350`. -/
def ROAD_X : Int := (WINDOW_WIDTH - ROAD_WIDTH) / 2

/-- Vertical road start, `(WINDOW_HEIGHT - ROAD_WIDTH) / 2 = 250`. -/
def ROAD_Y : Int := (WINDOW_HEIGHT - ROAD_WIDTH) / 2

def INTERSECTION_X_START : Int := ROAD_X

def INTERSECTION_X_END : Int := ROAD_X + ROAD_WIDTH

def INTERSECTION_Y_START : Int := ROAD_Y

def INTERSECTION_Y_END : Int := ROAD_Y + ROAD_WIDTH

/-- Lane centreline `(ROAD_X + ROAD_WIDTH / 2 + ROAD_X + ROAD_WIDTH) / 2 = 425`. -/
def NORTHBOUND_LANE_X : Int := (ROAD_X + ROAD_WIDTH / 2 + ROAD_X + ROAD_WIDTH) / 2

/-- Lane centreline `(ROAD_X + ROAD_WIDTH / 2 + ROAD_X) / 2 = 375`. -/
def SOUTHBOUND_LANE_X : Int := (ROAD_X + ROAD_WIDTH / 2 + ROAD_X) / 2

/-- Lane centreline `(ROAD_Y + ROAD_WIDTH / 2 + ROAD_Y + ROAD_WIDTH) / 2 = 325`. -/
def EASTBOUND_LANE_Y : Int := (ROAD_Y + ROAD_WIDTH / 2 + ROAD_Y + ROAD_WIDTH) / 2

/-- Lane centreline `(ROAD_Y + ROAD_WIDTH / 2 + ROAD_Y) / 2 = 275`. -/
def WESTBOUND_LANE_Y : Int := (ROAD_Y + ROAD_WIDTH / 2 + ROAD_Y) / 2

/-- Vehicle bounding-box side (`VEHICLE_SIZE: u32 = 20`). -/
def VEHICLE_SIZE : Int := 20

/-- Turn choice (`enum Turn` in `lib.rs`, shared with `vehicle.rs`). -/
inductive Turn where
  | Left
  | Right
  | Straight
deriving DecidableEq, Repr

/-- The 5-variant `Direction` used by `traffic_light.rs`, `vehicle.rs` and
`main.rs`: the four compass approaches plus the `AllRed` clearance
pseudo-approach. -/
inductive Direction where
  | North
  | South
  | East
  | West
  | AllRed
deriving DecidableEq, Repr

/-- The cycle-successor match used by `TrafficLightController::update` in
`traffic_light.rs`, including its `_ => Direction::North` fallback arm. -/
def nextAfter : Direction → Direction
  | .North => .South
  | .South => .East
  | .East => .West
  | .West => .North
  | .AllRed => .North

/-- State of the adaptive controller in `src/traffic_light.rs`.  Durations and
timestamps are milliseconds. -/
structure TrafficLightController where
  current : Direction
  phase_duration : Nat
  last_switch : Nat
  base_phase_duration : Nat
  max_phase_duration : Nat
  last_car_cleared_time : Option Nat
  last_green_direction : Direction
deriving DecidableEq, Repr

/-- `TrafficLightController::new(phase_secs)` from `traffic_light.rs`;
`Instant::now()` is the explicit `now` argument. -/
def TrafficLightController.new (phase_secs : Nat) (now : Nat) : TrafficLightController where
  current := .North
  phase_duration := phase_secs * 1000
  last_switch := now
  base_phase_duration := phase_secs * 1000
  max_phase_duration := 30000
  last_car_cleared_time := none
  last_green_direction := .West

/-- The early-release condition computed at the top of
`TrafficLightController::update`: the queue has been empty and the remembered
clear-timestamp is at least 500 ms old. -/
def TrafficLightController.should_switch (s : TrafficLightController)
    (waiting_vehicles : Nat) (now : Nat) : Bool :=
  waiting_vehicles = 0 &&
    match s.last_car_cleared_time with
    | some t => 500 ≤ now - t
    | none => false

/-- The full guard of the switch block in `TrafficLightController::update`:
early release, active phase duration elapsed, or fairness ceiling reached. -/
def TrafficLightController.fired (s : TrafficLightController)
    (waiting_vehicles : Nat) (now : Nat) : Bool :=
  s.should_switch waiting_vehicles now ||
    s.phase_duration ≤ now - s.last_switch ||
    s.max_phase_duration ≤ now - s.last_switch

/-- The adaptive phase-duration block at the end of the switch branch of
`TrafficLightController::update` (`traffic_light.rs` lines 76–87). -/
def adaptivePhase (is_congested : Bool) (waiting_vehicles : Nat) (base : Nat) : Nat :=
  if is_congested then base + 5000
  else if 5 < waiting_vehicles then base + 2000
  else if waiting_vehicles = 0 then
    if base - 1000 < 1000 then 1000 else base - 1000
  else base

/-- `TrafficLightController::update` from `src/traffic_light.rs`.  The
`last_car_cleared_time` bookkeeping happens first; if the switch guard fires,
the state transitions (AllRed resolves via `last_green_direction`; a concrete
approach either enters AllRed when the intersection or a stop line is occupied,
or advances in cycle order) and the adaptive duration block then runs
unconditionally, overwriting any duration set earlier in the branch. -/
def TrafficLightController.update (s : TrafficLightController)
    (waiting_vehicles : Nat) (cars_in_intersection : Bool)
    (vehicles_on_stop_line : Bool) (is_congested : Bool) (now : Nat) :
    TrafficLightController :=
  let cleared : Option Nat :=
    if waiting_vehicles = 0 then
      match s.last_car_cleared_time with
      | some t => some t
      | none => some now
    else none
  if s.fired waiting_vehicles now then
    let s1 := { s with last_switch := now, last_car_cleared_time := none }
    let s2 :=
      if s.current = .AllRed then
        { s1 with current := nextAfter s.last_green_direction }
      else if cars_in_intersection || vehicles_on_stop_line then
        { s1 with last_green_direction := s.current, current := .AllRed,
                  phase_duration := 2000 }
      else
        { s1 with current := nextAfter s.current }
    { s2 with phase_duration :=
        adaptivePhase is_congested waiting_vehicles s.base_phase_duration }
  else { s with last_car_cleared_time := cleared }

/-- Controller states reachable from `TrafficLightController::new` by a
sequence of `update` calls with arbitrary inputs and clock readings. -/
inductive TrafficLightController.Reachable : TrafficLightController → Prop
  | base (phase_secs now : Nat) :
      TrafficLightController.Reachable (TrafficLightController.new phase_secs now)
  | step (s : TrafficLightController) (w : Nat) (ci sl cg : Bool) (now : Nat) :
      TrafficLightController.Reachable s →
      TrafficLightController.Reachable (s.update w ci sl cg now)

namespace Lib

/-- The 4-variant `Direction` enum defined in `src/lib.rs` (no clearance
member; the crate-root controller tracks clearance with a separate flag). -/
inductive Direction where
  | North
  | South
  | East
  | West
deriving DecidableEq, Repr

/-- The cycle-successor match that appears twice inside the crate-root
`TrafficLightController::update` (`lib.rs` lines 66–71 and 87–92). -/
def nextDirection : Direction → Direction
  | .North => .South
  | .South => .East
  | .East => .West
  | .West => .North

/-- State of the crate-root controller in `src/lib.rs` (lines 40–46).
Durations and timestamps are milliseconds. -/
structure TrafficLightController where
  current : Direction
  all_red_phase : Bool
  phase_duration : Nat
  last_switch : Nat
  base_phase_duration : Nat
deriving DecidableEq, Repr

/-- `TrafficLightController::new(phase_secs)` from `lib.rs`. -/
def TrafficLightController.new (phase_secs : Nat) (now : Nat) : TrafficLightController where
  current := .North
  all_red_phase := false
  phase_duration := phase_secs * 1000
  last_switch := now
  base_phase_duration := phase_secs * 1000

/-- The duplicated adaptive-duration block of the crate-root controller
(`lib.rs` lines 72–81 and 93–102): `+2 s` when more than five vehicles wait,
saturating `−1 s` clamped to a 1 s floor when none wait, base otherwise. -/
def adjustedPhase (base : Nat) (waiting_vehicles : Nat) : Nat :=
  if 5 < waiting_vehicles then base + 2000
  else if waiting_vehicles = 0 then
    if base - 1000 < 1000 then 1000 else base - 1000
  else base

/-- `TrafficLightController::update` from `src/lib.rs` (lines 60–106): when the
active phase duration has elapsed, an AllRed phase resolves to the next
direction in cycle order; otherwise the controller enters the AllRed phase
with a 2 s duration when the intersection is occupied, or advances in cycle
order and recomputes the adaptive duration. -/
def TrafficLightController.update (s : TrafficLightController)
    (waiting_vehicles : Nat) (cars_in_intersection : Bool) (now : Nat) :
    TrafficLightController :=
  if s.phase_duration ≤ now - s.last_switch then
    let s1 := { s with last_switch := now }
    if s.all_red_phase then
      { s1 with all_red_phase := false,
                current := nextDirection s.current,
                phase_duration := adjustedPhase s.base_phase_duration waiting_vehicles }
    else if cars_in_intersection then
      { s1 with all_red_phase := true, phase_duration := 2000 }
    else
      { s1 with current := nextDirection s.current,
                phase_duration := adjustedPhase s.base_phase_duration waiting_vehicles }
  else s

/-- `struct Vehicle` from `src/lib.rs` (lines 109–119). -/
structure Vehicle where
  id : Nat
  dir : Direction
  turn : Turn
  x : Int
  y : Int
  passed : Bool
  path : List (Int × Int)
  path_index : Nat
deriving DecidableEq, Repr

/-- The private `generate_path` of `src/lib.rs` (lines 121–199). -/
def generate_path (dir : Direction) (turn : Turn) : List (Int × Int) :=
  match dir with
  | .North =>
    let x := SOUTHBOUND_LANE_X
    [(x, -20), (x, INTERSECTION_Y_START - 5)] ++
      match turn with
      | .Straight => [(x, WINDOW_HEIGHT + 20)]
      | .Left => [(x, EASTBOUND_LANE_Y), (WINDOW_WIDTH + 20, EASTBOUND_LANE_Y)]
      | .Right => [(x, WESTBOUND_LANE_Y), (-20, WESTBOUND_LANE_Y)]
  | .South =>
    let x := NORTHBOUND_LANE_X
    [(x, WINDOW_HEIGHT + 20), (x, INTERSECTION_Y_END + 5)] ++
      match turn with
      | .Straight => [(x, -20)]
      | .Left => [(x, WESTBOUND_LANE_Y), (-20, WESTBOUND_LANE_Y)]
      | .Right => [(x, EASTBOUND_LANE_Y), (WINDOW_WIDTH + 20, EASTBOUND_LANE_Y)]
  | .East =>
    let y := WESTBOUND_LANE_Y
    [(WINDOW_WIDTH + 20, y), (INTERSECTION_X_END + 5, y)] ++
      match turn with
      | .Straight => [(-20, y)]
      | .Left => [(SOUTHBOUND_LANE_X, y), (SOUTHBOUND_LANE_X, WINDOW_HEIGHT + 20)]
      | .Right => [(NORTHBOUND_LANE_X, y), (NORTHBOUND_LANE_X, -20)]
  | .West =>
    let y := EASTBOUND_LANE_Y
    [(-20, y), (INTERSECTION_X_START - 5, y)] ++
      match turn with
      | .Straight => [(WINDOW_WIDTH + 20, y)]
      | .Left => [(NORTHBOUND_LANE_X, y), (NORTHBOUND_LANE_X, -20)]
      | .Right => [(SOUTHBOUND_LANE_X, y), (SOUTHBOUND_LANE_X, WINDOW_HEIGHT + 20)]

/-- `struct World` from `src/lib.rs` (lines 201–205). -/
structure World where
  vehicles : List Vehicle
  controller : TrafficLightController
  next_id : Nat
deriving DecidableEq, Repr

/-- `World::new()` from `lib.rs`: no vehicles and a fresh 3-second controller. -/
def World.new (now : Nat) : World where
  vehicles := []
  controller := TrafficLightController.new 3 now
  next_id := 0

/-- The intersection-overlap test of `World::update` (`lib.rs` lines 228–229),
also the `in_intersection` notion of the specification. -/
def inIntersection (v : Vehicle) : Bool :=
  v.x < INTERSECTION_X_END && INTERSECTION_X_START < v.x + VEHICLE_SIZE &&
    v.y < INTERSECTION_Y_END && INTERSECTION_Y_START < v.y + VEHICLE_SIZE

/-- `my_next_pos` from the collision scan of `World::update` (lines 258–262):
the next waypoint if one remains, else the current position. -/
def my_next_pos (v : Vehicle) : Int × Int :=
  if v.path_index + 1 < v.path.length then v.path.getD (v.path_index + 1) (0, 0)
  else (v.x, v.y)

/-- One iteration of the inner collision scan of `World::update` (lines
255–274): a distinct vehicle within the squared-distance threshold and lying
ahead of the direction of travel. -/
def blockedBy (v other : Vehicle) : Bool :=
  !(v.id = other.id) &&
    (v.x - other.x) * (v.x - other.x) + (v.y - other.y) * (v.y - other.y) <
      VEHICLE_SIZE * VEHICLE_SIZE * 2 &&
    (let np := my_next_pos v
     0 < (np.1 - v.x) * (other.x - v.x) + (np.2 - v.y) * (other.y - v.y))

/-- The red-light test of `World::update` (lines 242–250): the initial value of
`should_stop` is `at_intersection_border && !is_green`, where
`at_intersection_border` is `path_index == 1` alone. -/
def stop_for_light (ctrl : TrafficLightController) (v : Vehicle) : Bool :=
  v.path_index = 1 && !(v.dir = ctrl.current && !ctrl.all_red_phase)

/-- The complete per-vehicle stop decision of `World::update` (lines 242–280):
the red-light test, else — only while `path_index < 2` — the pairwise
proximity scan over the pre-tick snapshot `vehicles_clone`. -/
def should_stop (ctrl : TrafficLightController) (snapshot : List Vehicle)
    (v : Vehicle) : Bool :=
  if stop_for_light ctrl v then true
  else if v.path_index < 2 then snapshot.any (blockedBy v)
  else false

/-- The per-axis movement increment `(d as f32 / dist * 5.0) as i32`, where
`dist = sqrt n`.  The `f32` arithmetic is modelled by exact real arithmetic
followed by Rust's truncation toward zero: for integers,
`trunc (5 * d / sqrt n)` equals `sign d * Nat.sqrt (25 * d^2 / n)`. -/
def moveStep (d n : Int) : Int :=
  (if d < 0 then -1 else 1) * Int.ofNat (Nat.sqrt (25 * (d * d).toNat / n.toNat))

/-- The motion-integration branch of `World::update` (lines 283–298).  The Rust
guard `dist < 5.0` on `dist = ((dx*dx + dy*dy) as f32).sqrt()` is exactly
`dx*dx + dy*dy < 25` for the coordinate ranges in play (sums below `2^24`
convert to `f32` exactly and square root is correctly rounded). -/
def moveVehicle (v : Vehicle) : Vehicle :=
  if v.path_index < v.path.length - 1 then
    let target := v.path.getD (v.path_index + 1) (0, 0)
    let dx := target.1 - v.x
    let dy := target.2 - v.y
    if dx * dx + dy * dy < 25 then { v with path_index := v.path_index + 1 }
    else { v with x := v.x + moveStep dx (dx * dx + dy * dy),
                  y := v.y + moveStep dy (dx * dx + dy * dy) }
  else { v with passed := true }

/-- The whole per-vehicle body of the update loop (lines 238–298): skip
`passed` vehicles, freeze stopped ones, move the rest. -/
def stepVehicle (ctrl : TrafficLightController) (snapshot : List Vehicle)
    (v : Vehicle) : Vehicle :=
  if v.passed then v
  else if should_stop ctrl snapshot v then v
  else moveVehicle v

/-- The eviction predicate of the final `retain` (lines 300–301). -/
def onScreenMargin (v : Vehicle) : Bool :=
  -40 < v.x && v.x < WINDOW_WIDTH + 40 && -40 < v.y && v.y < WINDOW_HEIGHT + 40

/-- `World::update` from `src/lib.rs` (lines 216–302): count waiting vehicles
on the green approach, detect intersection occupancy, update the controller,
then step every vehicle against the pre-tick snapshot `vehicles_clone`, and
finally evict far-off-screen vehicles. -/
def World.update (w : World) (now : Nat) : World :=
  let waiting_vehicles :=
    (w.vehicles.filter (fun v => v.dir = w.controller.current && v.path_index = 1)).length
  let cars_in_intersection := w.vehicles.any inIntersection
  let ctrl := w.controller.update waiting_vehicles cars_in_intersection now
  let vehicles_clone := w.vehicles
  let moved := w.vehicles.map (stepVehicle ctrl vehicles_clone)
  { vehicles := moved.filter onScreenMargin, controller := ctrl, next_id := w.next_id }

/-- `World::spawn_vehicle` from `src/lib.rs` (lines 304–325); the uniformly
random turn drawn from `thread_rng` is the explicit `turn` argument.  The
vehicle is pushed unconditionally and the id counter advances. -/
def World.spawn_vehicle (w : World) (dir : Direction) (turn : Turn) : World :=
  let path := generate_path dir turn
  let p0 := path.headD (0, 0)
  { w with
      vehicles := w.vehicles ++ [{ id := w.next_id, dir := dir, turn := turn,
                                   x := p0.1, y := p0.2, passed := false,
                                   path := path, path_index := 0 }],
      next_id := w.next_id + 1 }

end Lib

/-- `generate_path` from `src/vehicle.rs` (lines 19–120).  The function is pure
and total over the four concrete approaches; the `Direction::AllRed` arm is
`todo!()`, a panic, embedded as `none`. -/
def generate_path (dir : Direction) (turn : Turn) : Option (List (Int × Int)) :=
  match dir with
  | .North =>
    let x := SOUTHBOUND_LANE_X - 10
    some ([(x, -20), (x, INTERSECTION_Y_START - VEHICLE_SIZE - 5)] ++
      match turn with
      | .Straight => [(x, INTERSECTION_Y_START + 6), (x, WINDOW_HEIGHT + VEHICLE_SIZE)]
      | .Left => [(x, EASTBOUND_LANE_Y - 10), (WINDOW_WIDTH + VEHICLE_SIZE, EASTBOUND_LANE_Y - 10)]
      | .Right => [(x, WESTBOUND_LANE_Y - 10), (-20, WESTBOUND_LANE_Y - 10)])
  | .South =>
    let x := NORTHBOUND_LANE_X - 10
    some ([(x, WINDOW_HEIGHT + VEHICLE_SIZE), (x, INTERSECTION_Y_END + 5)] ++
      match turn with
      | .Straight => [(x, INTERSECTION_Y_END - 6), (x, -VEHICLE_SIZE)]
      | .Left => [(x, WESTBOUND_LANE_Y - 10), (-VEHICLE_SIZE, WESTBOUND_LANE_Y - 10)]
      | .Right => [(x, EASTBOUND_LANE_Y - 10), (WINDOW_WIDTH + VEHICLE_SIZE, EASTBOUND_LANE_Y - 10)])
  | .East =>
    let y := WESTBOUND_LANE_Y - 10
    some ([(WINDOW_WIDTH + VEHICLE_SIZE, y), (INTERSECTION_X_END + 5, y)] ++
      match turn with
      | .Straight => [(INTERSECTION_X_END - 6, y), (-VEHICLE_SIZE, y)]
      | .Left => [(SOUTHBOUND_LANE_X - 10, y), (SOUTHBOUND_LANE_X - 10, WINDOW_HEIGHT + VEHICLE_SIZE)]
      | .Right => [(NORTHBOUND_LANE_X - 10, y), (NORTHBOUND_LANE_X - 10, -VEHICLE_SIZE)])
  | .West =>
    let y := EASTBOUND_LANE_Y - 10
    some ([(-VEHICLE_SIZE, y), (INTERSECTION_X_START - VEHICLE_SIZE - 5, y)] ++
      match turn with
      | .Straight => [(INTERSECTION_X_START + 1, y), (WINDOW_WIDTH + VEHICLE_SIZE, y)]
      | .Left => [(NORTHBOUND_LANE_X - 10, y), (NORTHBOUND_LANE_X - 10, -VEHICLE_SIZE)]
      | .Right => [(SOUTHBOUND_LANE_X - 10, y), (SOUTHBOUND_LANE_X - 10, WINDOW_HEIGHT + VEHICLE_SIZE)])
  | .AllRed => none

/-- A waypoint whose vehicle box lies wholly above the visible window. -/
def offTopEdge (p : Int × Int) : Bool := p.2 + VEHICLE_SIZE ≤ 0

/-- A waypoint whose vehicle box lies wholly below the visible window. -/
def offBottomEdge (p : Int × Int) : Bool := WINDOW_HEIGHT ≤ p.2

/-- A waypoint whose vehicle box lies wholly past the window's left edge. -/
def offLeftEdge (p : Int × Int) : Bool := p.1 + VEHICLE_SIZE ≤ 0

/-- A waypoint whose vehicle box lies wholly past the window's right edge. -/
def offRightEdge (p : Int × Int) : Bool := WINDOW_WIDTH ≤ p.1

/-- The off-screen edge through which each approach enters the map. -/
def entryEdgeOk : Direction → (Int × Int) → Bool
  | .North, p => offTopEdge p
  | .South, p => offBottomEdge p
  | .East, p => offRightEdge p
  | .West, p => offLeftEdge p
  | .AllRed, _ => false

/-- The off-screen edge through which each approach-and-turn combination
exits the map: straight traffic leaves by the opposite edge, turning traffic
by the perpendicular edge matching the turn. -/
def exitEdgeOk : Direction → Turn → (Int × Int) → Bool
  | .North, .Straight, p => offBottomEdge p
  | .North, .Left, p => offRightEdge p
  | .North, .Right, p => offLeftEdge p
  | .South, .Straight, p => offTopEdge p
  | .South, .Left, p => offLeftEdge p
  | .South, .Right, p => offRightEdge p
  | .East, .Straight, p => offLeftEdge p
  | .East, .Left, p => offBottomEdge p
  | .East, .Right, p => offTopEdge p
  | .West, .Straight, p => offRightEdge p
  | .West, .Left, p => offTopEdge p
  | .West, .Right, p => offBottomEdge p
  | .AllRed, _, _ => false

/-- Signed gap between the vehicle box placed at a stop waypoint and the
intersection boundary that the given approach meets first (positive means the
box lies fully outside the boundary). -/
def stopLineGap : Direction → (Int × Int) → Int
  | .North, p => INTERSECTION_Y_START - (p.2 + VEHICLE_SIZE)
  | .South, p => p.2 - INTERSECTION_Y_END
  | .East, p => p.1 - INTERSECTION_X_END
  | .West, p => INTERSECTION_X_START - (p.1 + VEHICLE_SIZE)
  | .AllRed, _ => 0

/-- Decidable checker for the path contract of `generate_path` on one input:
the path exists, has at least two waypoints (three to four on turns), starts
off-screen outside the entry edge, ends off-screen outside the exit edge, and
its second waypoint sits exactly five units outside the intersection
boundary — the uniform stop-line offset shared by all four approaches. -/
def path_spec_ok (dir : Direction) (turn : Turn) : Bool :=
  match generate_path dir turn with
  | none => false
  | some p =>
    match p.head?, p[1]?, p.getLast? with
    | some p0, some p1, some plast =>
      decide (2 ≤ p.length) &&
        (!(turn = .Left || turn = .Right) || decide (3 ≤ p.length ∧ p.length ≤ 4)) &&
        entryEdgeOk dir p0 && exitEdgeOk dir turn plast && stopLineGap dir p1 = 5
    | _, _, _ => false

/-- In the adaptive controller, `last_green_direction` is only ever assigned a
concrete approach: it starts at `West` and is overwritten with `current` only
inside the branch that has already ruled `current = AllRed` out. -/
theorem TrafficLightController.last_green_concrete {s : TrafficLightController}
    (h : s.Reachable) : s.last_green_direction ≠ .AllRed := by
  induction h with
  | base p n => simp [TrafficLightController.new]
  | step s w ci sl cg now hs ih =>
    simp only [TrafficLightController.update]
    split
    · split
      · simpa using ih
      · split
        · simp_all
        · simpa using ih
    · simpa using ih

/-- One-step transition contract of the adaptive controller, bundling the
mutual-exclusion and cycle-order facts of claim C2 for a single `update` call:
the post-state is one of the five right-of-way values; a change between
concrete approaches is exactly the cycle successor; a fired tick never re-enters
AllRed from AllRed; an exit from AllRed goes to the cycle successor of the
remembered (concrete) pre-clearance approach; and entering AllRed records the
concrete approach that was interrupted. -/
def cycleStepOk (s : TrafficLightController) (w : Nat) (ci sl cg : Bool)
    (now : Nat) : Prop :=
  let s' := s.update w ci sl cg now
  (s'.current = .North ∨ s'.current = .South ∨ s'.current = .East ∨
     s'.current = .West ∨ s'.current = .AllRed)
  ∧ (s.current ≠ .AllRed → s'.current ≠ .AllRed → s'.current ≠ s.current →
      s'.current = nextAfter s.current)
  ∧ (s.fired w now = true → s.current = .AllRed → s'.current ≠ .AllRed)
  ∧ (s.current = .AllRed → s.fired w now = false → s'.current = .AllRed)
  ∧ (s.current = .AllRed → s'.current ≠ .AllRed →
      s'.current = nextAfter s.last_green_direction ∧
        s.last_green_direction ≠ .AllRed)
  ∧ (s'.current = .AllRed → s.current ≠ .AllRed →
      s'.last_green_direction = s.current)

/-- Claim C2: in every reachable controller state exactly one of the five
right-of-way values is current (the state is a single `Direction` value, so
mutual exclusion is by construction, and it is always one of the five);
concrete-to-concrete changes follow the fixed cycle North → South → East →
West → North; a fired tick never re-enters AllRed from AllRed; while AllRed
persists no transition has occurred; leaving AllRed grants the cycle successor
of the remembered concrete pre-clearance approach; and entering AllRed records
the interrupted approach. -/
theorem c2_cycle_order_and_mutual_exclusion (s : TrafficLightController)
    (h : s.Reachable) (w : Nat) (ci sl cg : Bool) (now : Nat) :
    cycleStepOk s w ci sl cg now := by
  have hlg := TrafficLightController.last_green_concrete h
  unfold cycleStepOk
  by_cases hf : s.fired w now = true
  · by_cases hc : s.current = .AllRed
    · refine ⟨?_, ?_, ?_, ?_, ?_, ?_⟩ <;>
        simp [TrafficLightController.update, hf, hc, hlg]
      · cases s.last_green_direction <;> simp [nextAfter]
      · cases s.last_green_direction <;> simp [nextAfter]
    · by_cases ho : (ci || sl) = true
      · refine ⟨?_, ?_, ?_, ?_, ?_, ?_⟩ <;>
          simp [TrafficLightController.update, hf, hc, ho, hlg]
      · refine ⟨?_, ?_, ?_, ?_, ?_, ?_⟩ <;>
          simp [TrafficLightController.update, hf, hc, ho, hlg]
        · cases s.current <;> simp [nextAfter]
        · cases s.current <;> simp [nextAfter]
  · simp only [Bool.not_eq_true] at hf
    refine ⟨?_, ?_, ?_, ?_, ?_, ?_⟩ <;>
      simp [TrafficLightController.update, hf, hlg]
    · cases hcur : s.current <;> simp
    · intro h1 h2; exact absurd h1 h2
    · intro h1 h2; exact absurd h1 h2

/-- Claim C2, witness: the one-step contract instantiated at the freshly
constructed controller. -/
theorem c2_witness : cycleStepOk (TrafficLightController.new 3 0) 0 false false false 0 :=
  c2_cycle_order_and_mutual_exclusion (TrafficLightController.new 3 0)
    (TrafficLightController.Reachable.base 3 0) 0 false false false 0

/-- Claim C1, counterexample: a controller sitting in AllRed whose 2-second
clearance has elapsed leaves AllRed on a tick whose `cars_in_intersection`
input is `true` — the occupancy signal is never consulted on the AllRed exit
path, so the controller does not remain in AllRed until the intersection is
clear. -/
theorem c1_counterexample :
    let s : TrafficLightController :=
      { current := .AllRed, phase_duration := 2000, last_switch := 0,
        base_phase_duration := 3000, max_phase_duration := 30000,
        last_car_cleared_time := none, last_green_direction := .North }
    s.current = .AllRed ∧
      (s.update 1 true false false 2000).current = .South ∧
      (s.update 1 true false false 2000).current ≠ .AllRed := by
  decide

/-- Claim C1 as amended: while in AllRed the controller remains in AllRed
exactly until the switch guard fires; when it fires, it transitions to the
cycle successor of the remembered pre-clearance approach for every value of
the intersection-occupancy input, clear or not. -/
theorem c1_allred_exit_ignores_occupancy (s : TrafficLightController)
    (hs : s.current = .AllRed) (w : Nat) (ci sl cg : Bool) (now : Nat) :
    ((s.fired w now = false → (s.update w ci sl cg now).current = .AllRed) ∧
      (s.fired w now = true →
        (s.update w ci sl cg now).current = nextAfter s.last_green_direction)) := by
  constructor <;> intro hf <;> simp [TrafficLightController.update, hf, hs]

/-- Claim C1, witness for the amended theorem, at a concrete AllRed state with
the occupancy input held `true`. -/
theorem c1_witness :
    let s : TrafficLightController :=
      { current := .AllRed, phase_duration := 2000, last_switch := 0,
        base_phase_duration := 5000, max_phase_duration := 30000,
        last_car_cleared_time := none, last_green_direction := .East }
    ((s.fired 3 2000 = false → (s.update 3 true false false 2000).current = .AllRed) ∧
      (s.fired 3 2000 = true →
        (s.update 3 true false false 2000).current = nextAfter s.last_green_direction)) :=
  c1_allred_exit_ignores_occupancy _ rfl 3 true false false 2000

/-- Claim C6, counterexample: a fired tick that sends a concrete approach into
AllRed (occupancy `true`) still runs the adaptive-duration block — the
resulting duration is the adaptive value `3000` (base, since one vehicle
waits and no congestion), not the 2-second clearance just assigned, so the
adjustment is applied on a transition where no concrete approach becomes
green. -/
theorem c6_counterexample :
    let s : TrafficLightController :=
      { current := .North, phase_duration := 3000, last_switch := 0,
        base_phase_duration := 3000, max_phase_duration := 30000,
        last_car_cleared_time := none, last_green_direction := .West }
    (s.update 1 true false false 3000).current = .AllRed ∧
      (s.update 1 true false false 3000).phase_duration = 3000 ∧
      (s.update 1 true false false 3000).phase_duration ≠ 2000 := by
  decide

/-- Claim C6 as amended: whenever the switch guard fires, the active phase
duration is recomputed exactly as base + 5 s when congested, else base + 2 s
when more than five vehicles wait, else base − 1 s clamped to a 1-second floor
when none wait, else the base — but this happens on every switch, including
the transition into AllRed (where it overwrites the 2-second clearance
value), not only when a concrete approach becomes green. -/
theorem c6_adaptive_duration_on_every_switch (s : TrafficLightController)
    (w : Nat) (ci sl cg : Bool) (now : Nat) (hf : s.fired w now = true) :
    (s.update w ci sl cg now).phase_duration =
      adaptivePhase cg w s.base_phase_duration := by
  simp [TrafficLightController.update, hf]

/-- Claim C6, witness for the amended theorem: a congested fired tick from a
green East approach yields base + 5 s. -/
theorem c6_witness :
    ((TrafficLightController.update
        { current := .East, phase_duration := 4000, last_switch := 0,
          base_phase_duration := 4000, max_phase_duration := 30000,
          last_car_cleared_time := none, last_green_direction := .South }
        7 false false true 4000).phase_duration =
      adaptivePhase true 7 4000) :=
  c6_adaptive_duration_on_every_switch _ 7 false false true 4000 (by decide)

/-- Claim C7, counterexample: a fired tick from a concrete approach with the
intersection occupied does transition to AllRed, but the clearance phase
duration ends up `8000` ms (base 3 s + 5 s, the adaptive value for a congested
input), not the short fixed 2 seconds — the `Duration::from_secs(2)`
assignment is immediately overwritten by the adaptive block. -/
theorem c7_counterexample :
    let s : TrafficLightController :=
      { current := .East, phase_duration := 3000, last_switch := 0,
        base_phase_duration := 3000, max_phase_duration := 30000,
        last_car_cleared_time := none, last_green_direction := .West }
    (s.update 2 true false true 3000).current = .AllRed ∧
      (s.update 2 true false true 3000).phase_duration = 8000 ∧
      (s.update 2 true false true 3000).phase_duration ≠ 2000 := by
  decide

/-- Claim C7 as amended: on every tick where the switch guard holds, the
current state is a concrete approach, and the intersection is occupied or a
vehicle sits on a stop line, the controller transitions to AllRed and records
the interrupted approach — but the active duration of that clearance phase is
the adaptive value (the fixed 2-second assignment is overwritten before the
call returns). -/
theorem c7_allred_entry_gets_adaptive_duration (s : TrafficLightController)
    (w : Nat) (ci sl cg : Bool) (now : Nat) (hf : s.fired w now = true)
    (hc : s.current ≠ .AllRed) (ho : (ci || sl) = true) :
    (s.update w ci sl cg now).current = .AllRed ∧
      (s.update w ci sl cg now).last_green_direction = s.current ∧
      (s.update w ci sl cg now).phase_duration =
        adaptivePhase cg w s.base_phase_duration := by
  refine ⟨?_, ?_, ?_⟩ <;> simp [TrafficLightController.update, hf, hc, ho]

/-- Claim C7, witness for the amended theorem at a concrete occupied switch
out of South-green. -/
theorem c7_witness :
    ((TrafficLightController.update
        { current := .South, phase_duration := 3000, last_switch := 1000,
          base_phase_duration := 3000, max_phase_duration := 30000,
          last_car_cleared_time := none, last_green_direction := .North }
        0 false true false 4000).current = .AllRed ∧
      (TrafficLightController.update
        { current := .South, phase_duration := 3000, last_switch := 1000,
          base_phase_duration := 3000, max_phase_duration := 30000,
          last_car_cleared_time := none, last_green_direction := .North }
        0 false true false 4000).last_green_direction = .South ∧
      (TrafficLightController.update
        { current := .South, phase_duration := 3000, last_switch := 1000,
          base_phase_duration := 3000, max_phase_duration := 30000,
          last_car_cleared_time := none, last_green_direction := .North }
        0 false true false 4000).phase_duration = adaptivePhase false 0 3000) :=
  c7_allred_entry_gets_adaptive_duration _ 0 false true false 4000 (by decide)
    (by decide) rfl
/-- Claim C3 as amended: `spawn_vehicle` performs no admission control at all —
for every World, approach and turn it unconditionally appends exactly one new
vehicle and advances the id counter; it is never a no-op, congested lane or
not, however close the previous spawn sits. -/
theorem c3_spawn_always_appends (w : Lib.World) (dir : Lib.Direction) (turn : Turn) :
    (w.spawn_vehicle dir turn).vehicles.length = w.vehicles.length + 1 ∧
      (w.spawn_vehicle dir turn).next_id = w.next_id + 1 := by
  simp [Lib.World.spawn_vehicle]

/-- A World obtained by one hundred consecutive North spawn requests on a
fresh World: one hundred vehicles, every one still at its spawn waypoint
(`path_index = 0`), far beyond any capacity a 600–840-pixel lane can hold for
20-pixel vehicles with a safety gap (at most 42). -/
def congestedWorld : Lib.World :=
  (fun w => Lib.World.spawn_vehicle w .North .Straight)^[100] (Lib.World.new 0)

set_option maxRecDepth 4000 in
/-- Claim C3, counterexample: with the North lane at one hundred queued
vehicles — at or over the computed capacity under every reading of the
capacity formula — the next spawn attempt is not a no-op: the vehicle count
rises to 101, and the new vehicle is placed at exactly the same spawn point
`(375, -20)` as the most recently spawned vehicle (distance zero, well within
one vehicle length plus gap), so the proximity rejection does not exist
either. -/
theorem c3_counterexample :
    congestedWorld.vehicles.length = 100 ∧
      (∀ v ∈ congestedWorld.vehicles, v.dir = .North ∧ v.path_index = 0) ∧
      (congestedWorld.vehicles.getLast?.map fun v => (v.x, v.y)) =
        some (SOUTHBOUND_LANE_X, -20) ∧
      (Lib.World.spawn_vehicle congestedWorld .North .Straight).vehicles.length = 101 ∧
      ((Lib.World.spawn_vehicle congestedWorld .North .Straight).vehicles.getLast?.map
        fun v => (v.x, v.y)) = some (SOUTHBOUND_LANE_X, -20) := by
  decide

/-- Claim C4, counterexample: ticking a fresh, empty World does not force the
controller into the clearance state — `World::update` has no empty-vehicles
early return, so the controller runs its normal path: `all_red_phase` stays
`false` and the green simply cycles from North to South when the phase timer
elapses; a second tick still shows no AllRed. -/
theorem c4_counterexample :
    ((Lib.World.new 0).update 3000).controller.all_red_phase = false ∧
      ((Lib.World.new 0).update 3000).controller.current = .South ∧
      (((Lib.World.new 0).update 3000).update 6000).controller.all_red_phase = false := by
  decide

/-- Claim C4 as amended: on an empty World the tick runs the ordinary update
path (there is no early return); with no vehicles the occupancy input is
`false`, so a controller whose clearance flag is clear can never acquire it —
repeated ticks leave the controller out of AllRed, the opposite of the claimed
forcing into AllRed. -/
theorem c4_empty_world_never_allred (w : Lib.World) (now : Nat)
    (hv : w.vehicles = []) (ha : w.controller.all_red_phase = false) :
    (w.update now).vehicles = [] ∧
      (w.update now).controller.all_red_phase = false := by
  unfold Lib.World.update
  simp only [hv, List.filter_nil, List.length_nil, List.any_nil, List.map_nil]
  refine ⟨trivial, ?_⟩
  unfold Lib.TrafficLightController.update
  split
  · simp [ha]
  · exact ha
/-- Claim C5, counterexample: a North vehicle at `(375, 260)` with
`path_index = 1` has a bounding box overlapping the intersection box, yet with
East holding green it is stopped for the light — `at_intersection_border` is
`path_index == 1` alone, the `in_intersection` condition is never consulted —
and the full `World::update` freezes it in place mid-box. -/
theorem c5_counterexample :
    let v : Lib.Vehicle :=
      { id := 0, dir := .North, turn := .Straight, x := 375, y := 260,
        passed := false, path := Lib.generate_path .North .Straight, path_index := 1 }
    let ctrl : Lib.TrafficLightController :=
      { current := .East, all_red_phase := false, phase_duration := 3000,
        last_switch := 0, base_phase_duration := 3000 }
    Lib.inIntersection v = true ∧ Lib.stop_for_light ctrl v = true ∧
      (Lib.World.update { vehicles := [v], controller := ctrl, next_id := 1 } 0).vehicles
        = [v] := by
  decide

/-- Claim C5 as amended: for every vehicle processed in a tick,
`stop_for_light` is true if and only if `path_index == 1` and the vehicle's
approach does not currently hold green (different approach or the clearance
flag set) — with no exemption for a vehicle whose bounding box already
overlaps the intersection. -/
theorem c5_stop_for_light_iff (ctrl : Lib.TrafficLightController) (v : Lib.Vehicle) :
    Lib.stop_for_light ctrl v = true ↔
      (v.path_index = 1 ∧ (v.dir ≠ ctrl.current ∨ ctrl.all_red_phase = true)) := by
  simp [Lib.stop_for_light]

/-- Bool `any` over a list depends only on the multiset of elements. -/
theorem any_congr_perm {α : Type} {l l' : List α} (h : l.Perm l') (p : α → Bool) :
    l.any p = l'.any p := by
  rw [Bool.eq_iff_iff, List.any_eq_true, List.any_eq_true]
  constructor
  · rintro ⟨x, hx, hp⟩; exact ⟨x, h.mem_iff.mp hx, hp⟩
  · rintro ⟨x, hx, hp⟩; exact ⟨x, h.mem_iff.mpr hx, hp⟩

/-- Claim C9: every per-vehicle stop decision in a tick is a function of the
vehicle and the single pre-tick snapshot only, and it depends on the snapshot
only through its multiset of vehicles — permuting the vehicle collection
changes no individual decision, and the post-step collection of the permuted
World is the corresponding permutation of the original post-step collection. -/
theorem c9_stop_decisions_snapshot_independent (ctrl : Lib.TrafficLightController)
    (l l' : List Lib.Vehicle) (v : Lib.Vehicle) (h : l.Perm l') :
    Lib.should_stop ctrl l v = Lib.should_stop ctrl l' v ∧
      (l.map (Lib.stepVehicle ctrl l)).Perm (l'.map (Lib.stepVehicle ctrl l')) := by
  have hss : ∀ u, Lib.should_stop ctrl l u = Lib.should_stop ctrl l' u := by
    intro u
    unfold Lib.should_stop
    rw [any_congr_perm h]
  have hstep : ∀ u, Lib.stepVehicle ctrl l u = Lib.stepVehicle ctrl l' u := by
    intro u; unfold Lib.stepVehicle; rw [hss u]
  have hmap : l'.map (Lib.stepVehicle ctrl l) = l'.map (Lib.stepVehicle ctrl l') :=
    List.map_congr_left fun u _ => hstep u
  exact ⟨hss v, hmap ▸ h.map (Lib.stepVehicle ctrl l)⟩

/-- Claim C10: once a vehicle's `path_index` reaches 2 the pairwise proximity
scan is skipped entirely, so a not-yet-passed vehicle past the stop waypoint
is never collision-stopped — its stop decision is `false` regardless of the
snapshot, and the motion integration runs on every tick, however close any
other vehicle sits. -/
theorem c10_collision_check_skipped_past_stop (ctrl : Lib.TrafficLightController)
    (snapshot : List Lib.Vehicle) (v : Lib.Vehicle)
    (h2 : 2 ≤ v.path_index) (hp : v.passed = false) :
    Lib.should_stop ctrl snapshot v = false ∧
      Lib.stepVehicle ctrl snapshot v = Lib.moveVehicle v := by
  have hl : Lib.stop_for_light ctrl v = false := by
    unfold Lib.stop_for_light
    simp
    intro h1
    omega
  have hs : Lib.should_stop ctrl snapshot v = false := by
    unfold Lib.should_stop
    rw [hl]
    simp
    intro h1
    omega
  refine ⟨hs, ?_⟩
  unfold Lib.stepVehicle
  rw [hp, hs]
  simp

/-- Claim C4, witness for the amended theorem: the fresh empty World ticked at
an arbitrary clock reading. -/
theorem c4_witness :
    ((Lib.World.new 0).update 7000).vehicles = [] ∧
      ((Lib.World.new 0).update 7000).controller.all_red_phase = false :=
  c4_empty_world_never_allred (Lib.World.new 0) 7000 rfl rfl

/-- Claim C9, witness: two concrete vehicles on the North approach listed in
both orders — both orderings produce the same stop decision for the leader and
post-step collections that are permutations of one another. -/
theorem c9_witness :
    let a : Lib.Vehicle :=
      { id := 0, dir := .North, turn := .Straight, x := 375, y := 245,
        passed := false, path := Lib.generate_path .North .Straight, path_index := 1 }
    let b : Lib.Vehicle :=
      { id := 1, dir := .North, turn := .Straight, x := 375, y := 230,
        passed := false, path := Lib.generate_path .North .Straight, path_index := 0 }
    let ctrl : Lib.TrafficLightController :=
      { current := .North, all_red_phase := false, phase_duration := 3000,
        last_switch := 0, base_phase_duration := 3000 }
    Lib.should_stop ctrl [a, b] b = Lib.should_stop ctrl [b, a] b ∧
      ([a, b].map (Lib.stepVehicle ctrl [a, b])).Perm
        ([b, a].map (Lib.stepVehicle ctrl [b, a])) := by
  exact c9_stop_decisions_snapshot_independent _ _ _ _ (by decide)

/-- Claim C10, witness: a vehicle with `path_index = 2` and another vehicle at
the very same position in the snapshot — the stop decision is still `false`
and the motion step is taken. -/
theorem c10_witness :
    let v : Lib.Vehicle :=
      { id := 0, dir := .North, turn := .Straight, x := 375, y := 300,
        passed := false, path := Lib.generate_path .North .Straight, path_index := 2 }
    let u : Lib.Vehicle :=
      { id := 1, dir := .North, turn := .Straight, x := 375, y := 300,
        passed := false, path := Lib.generate_path .North .Straight, path_index := 1 }
    let ctrl : Lib.TrafficLightController :=
      { current := .East, all_red_phase := false, phase_duration := 3000,
        last_switch := 0, base_phase_duration := 3000 }
    Lib.should_stop ctrl [v, u] v = false ∧
      Lib.stepVehicle ctrl [v, u] v = Lib.moveVehicle v := by
  exact c10_collision_check_skipped_past_stop _ _ _ (by decide) rfl

/-- Claim C8: `generate_path` of `vehicle.rs` is pure and deterministic by
construction and total over the four concrete approaches crossed with the
three turns; on every such input the path starts off-screen outside the entry
edge, ends off-screen outside the exit edge, has at least two waypoints
(three to four for turning vehicles), and its second waypoint — the stop
point indexed by `path_index == 1` — sits at the same five-unit offset just
outside the intersection boundary for all four approaches; only the AllRed
pseudo-approach is a precondition violation (the `todo!()` panic, embedded as
`none`). -/
theorem c8_generate_path_contract (d : Direction) (t : Turn) (hd : d ≠ .AllRed) :
    path_spec_ok d t = true ∧ generate_path .AllRed t = none := by
  refine ⟨?_, rfl⟩
  cases d <;> cases t <;> first | decide | exact absurd rfl hd

/-- Claim C8, witness: the contract instantiated at the North approach going
straight. -/
theorem c8_witness :
    path_spec_ok .North .Straight = true ∧ generate_path .AllRed .Straight = none :=
  c8_generate_path_contract .North .Straight (by decide)
